import Mathlib

/-
Verification of the session-broker backend (`src/backend/server.py`).

The server keeps two in-memory tables:
  `active_sessions      : Dict[str, Dict]`  (the Session Registry)
  `websocket_connections : Dict[str, WebSocket]` (the Connection Hub)
and exposes session creation, lookup, message send, mode switch, a
websocket join/switch/disconnect protocol, and a best-effort push
(`broadcast_to_session`).

The embedding below models both tables as association lists with Python
dict semantics (update-in-place keeps position, fresh insert appends),
sessions as records of the fields the handlers read and write, and each
upstream HTTP interaction as a three-way outcome:
  `ok …`       — the httpx call returned status 200 with the given body,
  `httpError`  — the call returned a non-200 status (httpx does not raise
                 for these, so control falls through the `if status == 200`),
  `exn`        — the call raised (connection failure / timeout); in
                 `send_chat_message` and `switch_session_mode` this is
                 caught by the outer `except` which raises HTTP 500, and in
                 `create_chat_session` / `get_chat_session` it is caught
                 locally.
Websocket handles are modelled as naturals, and delivery success of a
`send_text` on a handle by an oracle `d : Nat → Bool`.
-/

namespace ClineServer

/-! ## Association lists with Python dict semantics -/

/-- Lookup of a key in an association list: first binding wins
(Python dicts have unique keys, so this is dict lookup). -/
def lookup? {α : Type} (k : String) : List (String × α) → Option α
  | [] => none
  | (k', v) :: rest => if k' = k then some v else lookup? k rest

/-- Python `d[k] = v`: an existing key is updated in place (keeping its
position), a fresh key is appended at the end. -/
def upsert {α : Type} (k : String) (v : α) : List (String × α) → List (String × α)
  | [] => [(k, v)]
  | (k', v') :: rest => if k' = k then (k, v) :: rest else (k', v') :: upsert k v rest

/-- Python `del d[k]`: removes the binding of `k` (the first one; keys of a
dict are unique). -/
def eraseKey {α : Type} (k : String) : List (String × α) → List (String × α)
  | [] => []
  | (k', v) :: rest => if k' = k then rest else (k', v) :: eraseKey k rest

/-! ## Data model -/

/-- One entry of `active_sessions`, with the fields the handlers touch.
`enhanced_session_id = none` covers both an absent key and a stored `None`
(the code only ever reads it with `.get`, which conflates the two). -/
structure Session where
  id : String
  created : String
  mode : String
  qualityLevel : String
  enhanced_session_id : Option String
  api_type : String
  status : String
deriving DecidableEq

/-- The two shared mutable tables of the server. -/
structure ServerState where
  active_sessions : List (String × Session)
  websocket_connections : List (String × Nat)
deriving DecidableEq

/-- State at process start: both tables empty. -/
def initState : ServerState := ⟨[], []⟩

/-- Body of `ChatSessionRequest`. -/
structure ChatSessionRequest where
  mode : String
  qualityLevel : String
  description : Option String
deriving DecidableEq

/-- Body of `ChatMessageRequest`. -/
structure ChatMessageRequest where
  message : String
  mode : String
deriving DecidableEq

/-- Body of `ModeRequest`. -/
structure ModeRequest where
  mode : String
deriving DecidableEq

/-- Errors raised to the HTTP caller: `HTTPException(404)` for an unknown
session, `HTTPException(500)` out of the catch-all handlers. -/
inductive ApiErr where
  | notFound (detail : String)
  | internal (detail : String)
deriving DecidableEq

/-! ## Upstream call outcomes -/

/-- Outcome of `POST /api/sessions` on the enhanced tier at creation time;
on 200 the code stores `response.json().get("sessionId")`. -/
inductive CreateUpstream where
  | ok (sessionId : Option String)
  | httpError
  | exn
deriving DecidableEq

/-- A 200 body of `GET /api/sessions/id` on the enhanced tier, projected
onto the stored fields: `session.update(enhanced_status)` overwrites
exactly the keys the upstream body carries, so each field is `some new`
when the body carries that key and `none` when it does not. Keys outside
the tracked ones do not influence any handler and are not modelled. -/
structure StatusPatch where
  id : Option String
  created : Option String
  mode : Option String
  qualityLevel : Option String
  enhanced_session_id : Option (Option String)
  api_type : Option String
  status : Option String
deriving DecidableEq

/-- The all-absent upstream status body. -/
def noPatch : StatusPatch := ⟨none, none, none, none, none, none, none⟩

/-- Outcome of the status read in `get_chat_session`. -/
inductive GetUpstream where
  | ok (patch : StatusPatch)
  | httpError
  | exn
deriving DecidableEq

/-- A 200 body of the enhanced message call, with the fields the handler
reads (`content`, `toolUsed`, `executionResult`). -/
structure MsgResult where
  content : String
  toolUsed : Option String
  executionResult : Option String
deriving DecidableEq

/-- Outcome of the enhanced message call in `send_chat_message`. -/
inductive MsgUpstream where
  | ok (result : MsgResult)
  | httpError
  | exn
deriving DecidableEq

/-- Outcome of the enhanced mode call in `switch_session_mode`; on 200 the
handler reads `result.get("message")`. -/
inductive ModeUpstream where
  | ok (message : Option String)
  | httpError
  | exn
deriving DecidableEq

/-! ## Responses -/

/-- Success body of `create_chat_session`. -/
structure CreateResponse where
  sessionId : String
  mode : String
  qualityLevel : String
  api_type : String
  enhanced_session_id : Option String
deriving DecidableEq

/-- Success body of `send_chat_message`: either the enhanced tier's JSON
passed through, or the locally composed basic response. -/
inductive MsgResponse where
  | enhanced (result : MsgResult)
  | basic (content : String) (mode : String)
deriving DecidableEq

/-- Success body of `switch_session_mode` (the fields both paths share). -/
structure SwitchResponse where
  previousMode : String
  currentMode : String
deriving DecidableEq

/-! ## Handlers -/

/-- Python truthiness of `session.get("enhanced_session_id")`: `None` and
the empty string are falsy. -/
def truthyOpt : Option String → Bool
  | none => false
  | some s => s != ""

/-- The guard `session.get("api_type") == "enhanced" and
session.get("enhanced_session_id")` shared by the get / send / switch
handlers. -/
def enhancedPath (s : Session) : Bool :=
  s.api_type == "enhanced" && truthyOpt s.enhanced_session_id

/-- `broadcast_to_session`: if a subscriber is registered, try to deliver;
a failed `send_text` deletes the binding and is swallowed. The return type
has no error alternative because the handler catches every exception —
push never raises to its caller. The second component records what
happened: `none` = no subscriber (event dropped), `some true` = delivered,
`some false` = delivery failed and the handle was unsubscribed. -/
def broadcast_to_session (hub : List (String × Nat)) (sid : String)
    (message : String) (d : Nat → Bool) : List (String × Nat) × Option Bool :=
  match lookup? sid hub with
  | none => (hub, none)
  | some conn => if d conn then (hub, some true) else (eraseKey sid hub, some false)

/-- The `if session_id in websocket_connections: await broadcast_to_session(…)`
pattern of the send / switch handlers; only the resulting hub matters. -/
def pushIfConnected (hub : List (String × Nat)) (sid : String)
    (message : String) (d : Nat → Bool) : List (String × Nat) :=
  if (lookup? sid hub).isSome then (broadcast_to_session hub sid message d).1 else hub

/-- `create_chat_session`: try the enhanced tier first; on a 200 response
store an `enhanced` session holding `body.get("sessionId")`; on a non-200
response or a raised connection error (both swallowed by the inner
`except`) fall through to registering a `basic` session with no
`enhanced_session_id` key. `sid` stands for the generated uuid4 and `now`
for the creation timestamp. -/
def create_chat_session (st : ServerState) (req : ChatSessionRequest)
    (sid : String) (now : String) (up : CreateUpstream) : ServerState × CreateResponse :=
  match up with
  | .ok upstreamSid =>
      let s : Session :=
        { id := sid, created := now, mode := req.mode, qualityLevel := req.qualityLevel,
          enhanced_session_id := upstreamSid, api_type := "enhanced", status := "active" }
      ({ st with active_sessions := upsert sid s st.active_sessions },
       { sessionId := sid, mode := req.mode, qualityLevel := req.qualityLevel,
         api_type := "enhanced", enhanced_session_id := upstreamSid })
  | _ =>
      let s : Session :=
        { id := sid, created := now, mode := req.mode, qualityLevel := req.qualityLevel,
          enhanced_session_id := none, api_type := "basic", status := "active" }
      ({ st with active_sessions := upsert sid s st.active_sessions },
       { sessionId := sid, mode := req.mode, qualityLevel := req.qualityLevel,
         api_type := "basic", enhanced_session_id := none })

/-- `session.update(enhanced_status)` projected onto the tracked fields:
every key the upstream body carries overwrites the stored field. -/
def applyPatch (s : Session) (p : StatusPatch) : Session :=
  { id := p.id.getD s.id,
    created := p.created.getD s.created,
    mode := p.mode.getD s.mode,
    qualityLevel := p.qualityLevel.getD s.qualityLevel,
    enhanced_session_id := p.enhanced_session_id.getD s.enhanced_session_id,
    api_type := p.api_type.getD s.api_type,
    status := p.status.getD s.status }

deriving instance DecidableEq for Except

/-- Result of `get_chat_session`: the state afterwards, whether the
enhanced tier was called, and the HTTP result. -/
structure GetOutcome where
  state : ServerState
  upstreamCalled : Bool
  result : Except ApiErr Session
deriving DecidableEq

/-- `get_chat_session`: 404 on an unknown id; for an enhanced session a
best-effort status read whose 200 body is merged into the stored record
(`session.update` mutates the dict held by the registry); a non-200 or a
raised error is swallowed and the stored record returned as-is. -/
def get_chat_session (st : ServerState) (sid : String) (up : GetUpstream) : GetOutcome :=
  match lookup? sid st.active_sessions with
  | none => ⟨st, false, .error (.notFound "Session not found")⟩
  | some session =>
    if enhancedPath session then
      match up with
      | .ok patch =>
          let updated := applyPatch session patch
          ⟨{ st with active_sessions := upsert sid updated st.active_sessions },
           true, .ok updated⟩
      | .httpError => ⟨st, true, .ok session⟩
      | .exn => ⟨st, true, .ok session⟩
    else ⟨st, false, .ok session⟩

/-- Result of `send_chat_message`. -/
structure SendOutcome where
  state : ServerState
  upstreamCalled : Bool
  result : Except ApiErr MsgResponse
deriving DecidableEq

/-- The fallback tail of `send_chat_message`: compose
`"Received message: " + message` locally, push an `agent_response` event if
a subscriber is registered, and return success. `called` records whether an
upstream attempt preceded the fallback. -/
def basicSendPath (st : ServerState) (sid : String) (req : ChatMessageRequest)
    (called : Bool) (d : Nat → Bool) : SendOutcome :=
  let basicContent := "Received message: " ++ req.message
  let hub := pushIfConnected st.websocket_connections sid basicContent d
  ⟨{ st with websocket_connections := hub }, called, .ok (.basic basicContent req.mode)⟩

/-- `send_chat_message`: 404 on an unknown id. For an enhanced session the
upstream call is attempted; a 200 pushes an `agent_response` event and
returns the upstream body; a non-200 falls through to the basic tail; a
raised connection error / timeout propagates to the outer `except`, which
raises HTTP 500. A basic session goes straight to the basic tail. -/
def send_chat_message (st : ServerState) (sid : String) (req : ChatMessageRequest)
    (up : MsgUpstream) (d : Nat → Bool) : SendOutcome :=
  match lookup? sid st.active_sessions with
  | none => ⟨st, false, .error (.notFound "Session not found")⟩
  | some session =>
    if enhancedPath session then
      match up with
      | .ok result =>
          let hub := pushIfConnected st.websocket_connections sid result.content d
          ⟨{ st with websocket_connections := hub }, true, .ok (.enhanced result)⟩
      | .httpError => basicSendPath st sid req true d
      | .exn => ⟨st, true, .error (.internal "Failed to process message")⟩
    else basicSendPath st sid req false d

/-- Result of `switch_session_mode`. -/
structure SwitchOutcome where
  state : ServerState
  upstreamCalled : Bool
  result : Except ApiErr SwitchResponse
deriving DecidableEq

/-- The basic tail of `switch_session_mode`: read the previous mode, update
the registry, push a `mode_switched` event if subscribed, return both
modes. -/
def basicSwitchPath (st : ServerState) (sid : String) (session : Session)
    (req : ModeRequest) (called : Bool) (d : Nat → Bool) : SwitchOutcome :=
  let previous_mode := session.mode
  let updated := { session with mode := req.mode }
  let sessions := upsert sid updated st.active_sessions
  let hub := pushIfConnected st.websocket_connections sid "mode_switched" d
  ⟨⟨sessions, hub⟩, called, .ok { previousMode := previous_mode, currentMode := req.mode }⟩

/-- `switch_session_mode`: 404 on an unknown id. For an enhanced session a
200 upstream response updates the registry's mode and then builds the
response, reading `previousMode` from the already-mutated record (so it
equals the new mode — the source sets `session["mode"]` before reading it
back); a non-200 falls through to the basic tail; a raised error reaches
the outer `except`, which raises HTTP 500. A basic session goes straight
to the basic tail. -/
def switch_session_mode (st : ServerState) (sid : String) (req : ModeRequest)
    (up : ModeUpstream) (d : Nat → Bool) : SwitchOutcome :=
  match lookup? sid st.active_sessions with
  | none => ⟨st, false, .error (.notFound "Session not found")⟩
  | some session =>
    if enhancedPath session then
      match up with
      | .ok _msg =>
          let updated := { session with mode := req.mode }
          let sessions := upsert sid updated st.active_sessions
          let hub := pushIfConnected st.websocket_connections sid "mode_switched" d
          ⟨⟨sessions, hub⟩, true, .ok { previousMode := updated.mode, currentMode := req.mode }⟩
      | .httpError => basicSwitchPath st sid session req true d
      | .exn => ⟨st, true, .error (.internal "Failed to switch mode")⟩
    else basicSwitchPath st sid session req false d

/-! ## Websocket protocol -/

/-- The `join_session` frame: for a truthy, registered session id, register
the connection as the sole subscriber (replacing any previous one). -/
def websocket_join (st : ServerState) (sid : String) (conn : Nat) : ServerState :=
  if sid != "" && (lookup? sid st.active_sessions).isSome then
    { st with websocket_connections := upsert sid conn st.websocket_connections }
  else st

/-- The `switch_mode` frame: for a truthy, registered session id, set the
stored mode directly (no upstream consultation on this path). -/
def websocket_switch_mode (st : ServerState) (sid : String) (mode : String) : ServerState :=
  if sid != "" then
    match lookup? sid st.active_sessions with
    | some session =>
        { st with active_sessions := upsert sid { session with mode := mode } st.active_sessions }
    | none => st
  else st

/-- The disconnect cleanup loop: iterate over the hub in insertion order,
delete the first binding whose handle is the disconnected connection, then
`break`. -/
def removeFirstHandle (conn : Nat) : List (String × Nat) → List (String × Nat)
  | [] => []
  | (sid, c) :: rest => if c = conn then rest else (sid, c) :: removeFirstHandle conn rest

/-- The `WebSocketDisconnect` handler of `websocket_endpoint`. -/
def websocket_disconnect (st : ServerState) (conn : Nat) : ServerState :=
  { st with websocket_connections := removeFirstHandle conn st.websocket_connections }

/-! ## Operation traces -/

/-- One externally triggered operation, with its environment (upstream
outcome, delivery oracle) baked in. -/
inductive Action where
  | create (req : ChatSessionRequest) (sid : String) (now : String) (up : CreateUpstream)
  | getSession (sid : String) (up : GetUpstream)
  | send (sid : String) (req : ChatMessageRequest) (up : MsgUpstream) (d : Nat → Bool)
  | switchMode (sid : String) (req : ModeRequest) (up : ModeUpstream) (d : Nat → Bool)
  | wsJoin (sid : String) (conn : Nat)
  | wsSwitchMode (sid : String) (mode : String)
  | wsDisconnect (conn : Nat)

/-- State transition of one operation (results projected away). -/
def step (st : ServerState) : Action → ServerState
  | .create req sid now up => (create_chat_session st req sid now up).1
  | .getSession sid up => (get_chat_session st sid up).state
  | .send sid req up d => (send_chat_message st sid req up d).state
  | .switchMode sid req up d => (switch_session_mode st sid req up d).state
  | .wsJoin sid conn => websocket_join st sid conn
  | .wsSwitchMode sid mode => websocket_switch_mode st sid mode
  | .wsDisconnect conn => websocket_disconnect st conn

/-- A well-behaved environment: every 200 creation response carries a
non-empty `sessionId`, and no upstream status body carries an `api_type`
or `enhanced_session_id` key. -/
def goodAction : Action → Prop
  | .create _ _ _ (CreateUpstream.ok ssid) => truthyOpt ssid = true
  | .getSession _ (GetUpstream.ok patch) =>
      patch.api_type = none ∧ patch.enhanced_session_id = none
  | _ => True

/-- A single session record honouring the enhanced-implies-upstreamRef
invariant. -/
def SessOk (s : Session) : Prop :=
  s.api_type = "enhanced" → truthyOpt s.enhanced_session_id = true

/-- The spec's registry invariant: every stored enhanced session has a
present, non-empty upstream reference. -/
def EnhancedInv (l : List (String × Session)) : Prop :=
  ∀ k s, lookup? k l = some s → SessOk s

/-- Preservation of the immutable fields `id` and `api_type` between two
registry snapshots. -/
def preservesIdTier (old new : List (String × Session)) : Prop :=
  ∀ k s, lookup? k old = some s →
    ∃ s', lookup? k new = some s' ∧ s'.id = s.id ∧ s'.api_type = s.api_type

/-- Environment constraint for the id/tier frame property of
`get_chat_session`: a 200 status body carries neither `id` nor `api_type`. -/
def patchKeepsIdTier : GetUpstream → Prop
  | GetUpstream.ok p => p.id = none ∧ p.api_type = none
  | _ => True

/-! ## Concrete test fixtures -/

/-- An enhanced session bound to upstream reference `u`. -/
def enhancedSessionA : Session :=
  { id := "s", created := "t", mode := "ACT", qualityLevel := "advanced",
    enhanced_session_id := some "u", api_type := "enhanced", status := "active" }

/-- A state holding the one enhanced session `s` and no subscriber. -/
def stA : ServerState := ⟨[("s", enhancedSessionA)], []⟩

/-- A basic session. -/
def basicSessionB : Session :=
  { id := "b", created := "t", mode := "ACT", qualityLevel := "advanced",
    enhanced_session_id := none, api_type := "basic", status := "active" }

/-- A state holding the one basic session `b` and no subscriber. -/
def stB : ServerState := ⟨[("b", basicSessionB)], []⟩

/-- A delivery oracle on which every handle accepts. -/
def deliverAll : Nat → Bool := fun _ => true

/-- A delivery oracle on which every handle is broken. -/
def deliverNone : Nat → Bool := fun _ => false

/-- An upstream status body carrying only an `id` field. -/
def idPatch : StatusPatch := ⟨some "evil", none, none, none, none, none, none⟩

/-- A state with one connection (handle 0) subscribed to two sessions. -/
def stHub2 : ServerState := ⟨[("s1", enhancedSessionA), ("s2", enhancedSessionA)],
                             [("s1", 0), ("s2", 0)]⟩

/-- A state whose hub holds another connection's subscription first, then
two subscriptions of connection 0. -/
def stHub3 : ServerState := ⟨[], [("s1", 1), ("s2", 0), ("s3", 0)]⟩

/-! ## Association-list lemmas -/

theorem lookup_upsert_self {α : Type} (k : String) (v : α) (l : List (String × α)) :
    lookup? k (upsert k v l) = some v := by
  induction l with
  | nil => simp [upsert, lookup?]
  | cons hd tl ih =>
      obtain ⟨k', v'⟩ := hd
      by_cases h : k' = k
      · simp [upsert, h, lookup?]
      · simp [upsert, h, lookup?, ih]

theorem lookup_upsert_ne {α : Type} {k k' : String} (h : k' ≠ k) (v : α)
    (l : List (String × α)) : lookup? k' (upsert k v l) = lookup? k' l := by
  have h2 : k ≠ k' := Ne.symm h
  induction l with
  | nil => simp [upsert, lookup?, h2]
  | cons hd tl ih =>
      obtain ⟨ka, va⟩ := hd
      by_cases h1 : ka = k
      · subst h1
        simp [upsert, lookup?, h2]
      · simp [upsert, h1, lookup?, ih]

theorem upsert_fresh {α : Type} {k : String} {l : List (String × α)}
    (h : lookup? k l = none) (v : α) : upsert k v l = l ++ [(k, v)] := by
  induction l with
  | nil => simp [upsert]
  | cons hd tl ih =>
      obtain ⟨ka, va⟩ := hd
      by_cases h1 : ka = k
      · rw [lookup?, if_pos h1] at h
        exact absurd h (by simp)
      · rw [lookup?, if_neg h1] at h
        simp [upsert, h1, ih h]

theorem lookup_eq_none_of_not_mem_keys {α : Type} {k : String} {l : List (String × α)}
    (h : k ∉ l.map Prod.fst) : lookup? k l = none := by
  induction l with
  | nil => rfl
  | cons hd tl ih =>
      obtain ⟨ka, va⟩ := hd
      simp only [List.map_cons, List.mem_cons, not_or] at h
      obtain ⟨h1, h2⟩ := h
      simp only [lookup?]
      rw [if_neg (by exact fun hh => h1 hh.symm)]
      exact ih h2

theorem removeFirstHandle_clean_prefix {conn : Nat} {sid : String}
    (pre post : List (String × Nat)) (hpre : ∀ p ∈ pre, p.2 ≠ conn) :
    removeFirstHandle conn (pre ++ (sid, conn) :: post) = pre ++ post := by
  induction pre with
  | nil => simp [removeFirstHandle]
  | cons hd tl ih =>
      obtain ⟨ka, ca⟩ := hd
      have hca : ca ≠ conn := hpre (ka, ca) (List.mem_cons_self _ _)
      simp only [List.cons_append, removeFirstHandle, if_neg hca, List.cons.injEq, true_and]
      exact ih (fun p hp => hpre p (List.mem_cons_of_mem _ hp))

/-! ## Frame lemmas about the handlers -/

theorem send_sessions_unchanged (st : ServerState) (sid : String) (req : ChatMessageRequest)
    (up : MsgUpstream) (d : Nat → Bool) :
    (send_chat_message st sid req up d).state.active_sessions = st.active_sessions := by
  unfold send_chat_message basicSendPath
  split
  · rfl
  · split
    · split <;> rfl
    · rfl

theorem preservesIdTier_refl (l : List (String × Session)) : preservesIdTier l l :=
  fun _ s h => ⟨s, h, rfl, rfl⟩

theorem preservesIdTier_upsert {l : List (String × Session)} {sid : String} {s t : Session}
    (hs : lookup? sid l = some s) (hid : t.id = s.id) (hty : t.api_type = s.api_type) :
    preservesIdTier l (upsert sid t l) := by
  intro k s0 h0
  by_cases hk : k = sid
  · subst hk
    rw [h0] at hs
    injection hs with hs
    subst hs
    exact ⟨t, lookup_upsert_self k t l, hid, hty⟩
  · exact ⟨s0, by rw [lookup_upsert_ne hk]; exact h0, rfl, rfl⟩

theorem enhancedInv_upsert {l : List (String × Session)} (hl : EnhancedInv l)
    {sid : String} {t : Session} (ht : SessOk t) : EnhancedInv (upsert sid t l) := by
  intro k s h
  by_cases hk : k = sid
  · subst hk
    rw [lookup_upsert_self] at h
    injection h with h
    exact h ▸ ht
  · rw [lookup_upsert_ne hk] at h
    exact hl k s h

/-! ## Claim theorems -/

/-- C6: for a session id absent from the registry, `get_chat_session`,
`send_chat_message` and `switch_session_mode` all fail with the 404
NotFound error and leave the whole state — session table and subscription
map — unchanged (the full outcome records the unchanged state). -/
theorem unknown_id_not_found_no_mutation (st : ServerState) (sid : String)
    (gu : GetUpstream) (req : ChatMessageRequest) (mreq : ModeRequest)
    (mu : MsgUpstream) (mo : ModeUpstream) (d d' : Nat → Bool)
    (h : lookup? sid st.active_sessions = none) :
    get_chat_session st sid gu = ⟨st, false, .error (.notFound "Session not found")⟩
      ∧ send_chat_message st sid req mu d
        = ⟨st, false, .error (.notFound "Session not found")⟩
      ∧ switch_session_mode st sid mreq mo d'
        = ⟨st, false, .error (.notFound "Session not found")⟩ := by
  unfold get_chat_session send_chat_message switch_session_mode
  rw [h]
  exact ⟨rfl, rfl, rfl⟩

/-- C6 witness: a concrete unknown id against the one-session state. -/
theorem unknown_id_not_found_no_mutation_witness :
    get_chat_session stA "zz" GetUpstream.httpError
        = ⟨stA, false, .error (.notFound "Session not found")⟩
      ∧ send_chat_message stA "zz" ⟨"hi", "ACT"⟩ MsgUpstream.httpError deliverAll
        = ⟨stA, false, .error (.notFound "Session not found")⟩
      ∧ switch_session_mode stA "zz" ⟨"PLAN"⟩ ModeUpstream.httpError deliverAll
        = ⟨stA, false, .error (.notFound "Session not found")⟩ :=
  unknown_id_not_found_no_mutation stA "zz" GetUpstream.httpError ⟨"hi", "ACT"⟩ ⟨"PLAN"⟩
    MsgUpstream.httpError ModeUpstream.httpError deliverAll deliverAll rfl

/-- C7: when the enhanced tier is unreachable (raised connection error /
timeout) or returns a non-200 response during creation, exactly one
session is appended to the registry (the generated id being fresh), it is
bound to the basic tier and carries no upstream reference, and the
subscription map is untouched. -/
theorem create_fallback_registers_basic (st : ServerState) (req : ChatSessionRequest)
    (sid now : String) (up : CreateUpstream)
    (hfresh : lookup? sid st.active_sessions = none)
    (hup : up = CreateUpstream.httpError ∨ up = CreateUpstream.exn) :
    (create_chat_session st req sid now up).1.active_sessions
        = st.active_sessions ++
          [(sid, { id := sid, created := now, mode := req.mode,
                   qualityLevel := req.qualityLevel, enhanced_session_id := none,
                   api_type := "basic", status := "active" })]
      ∧ (create_chat_session st req sid now up).1.websocket_connections
        = st.websocket_connections := by
  rcases hup with rfl | rfl <;>
    exact ⟨upsert_fresh hfresh _, rfl⟩

/-- C7 witness: creation against the one-session state while the enhanced
tier raises. -/
theorem create_fallback_registers_basic_witness :
    (create_chat_session stA ⟨"ACT", "advanced", none⟩ "b2" "t2" CreateUpstream.exn).1.active_sessions
        = stA.active_sessions ++
          [("b2", { id := "b2", created := "t2", mode := "ACT", qualityLevel := "advanced",
                    enhanced_session_id := none, api_type := "basic", status := "active" })] :=
  (create_fallback_registers_basic stA ⟨"ACT", "advanced", none⟩ "b2" "t2" CreateUpstream.exn
    rfl (Or.inr rfl)).1

/-- C8: for a basic-tier session, `send_chat_message` performs no upstream
attempt and succeeds with the locally composed response, whose content
contains the original input text as a substring. -/
theorem basic_send_is_local (st : ServerState) (sid : String) (s : Session)
    (req : ChatMessageRequest) (up : MsgUpstream) (d : Nat → Bool)
    (hs : lookup? sid st.active_sessions = some s) (hb : s.api_type = "basic") :
    (send_chat_message st sid req up d).upstreamCalled = false
      ∧ (send_chat_message st sid req up d).result
          = .ok (.basic ("Received message: " ++ req.message) req.mode)
      ∧ ∃ pre suf, "Received message: " ++ req.message = pre ++ req.message ++ suf := by
  have he : enhancedPath s = false := by simp [enhancedPath, hb]
  unfold send_chat_message
  rw [hs]
  simp only [he, Bool.false_eq_true, if_false]
  exact ⟨rfl, rfl, "Received message: ", "", by rw [String.append_empty]⟩

/-- C8 witness: a concrete basic session and a concrete message. -/
theorem basic_send_is_local_witness :
    (send_chat_message stB "b" ⟨"hello", "ACT"⟩ MsgUpstream.exn deliverAll).upstreamCalled = false
      ∧ (send_chat_message stB "b" ⟨"hello", "ACT"⟩ MsgUpstream.exn deliverAll).result
        = .ok (.basic "Received message: hello" "ACT") := by
  have h := basic_send_is_local stB "b" basicSessionB ⟨"hello", "ACT"⟩ MsgUpstream.exn
    deliverAll rfl rfl
  exact ⟨h.1, h.2.1⟩

/-- C1 counterexample: on an enhanced session, a reachable-but-rejecting
upstream (non-200 message response) is NOT surfaced — the handler falls
through to the basic local response and returns success to the caller. -/
theorem send_upstream_error_counterexample :
    (send_chat_message stA "s" ⟨"hi", "ACT"⟩ MsgUpstream.httpError deliverAll).result
      = .ok (.basic "Received message: hi" "ACT") := rfl

/-- C1 amended: for every enhanced-path session, a non-200 upstream
response to a message send triggers the basic local fallback: the caller
receives the locally composed success, the upstream was attempted, and the
registry is unchanged. -/
theorem send_upstream_error_falls_back (st : ServerState) (sid : String) (s : Session)
    (req : ChatMessageRequest) (d : Nat → Bool)
    (hs : lookup? sid st.active_sessions = some s) (he : enhancedPath s = true) :
    (send_chat_message st sid req MsgUpstream.httpError d).result
        = .ok (.basic ("Received message: " ++ req.message) req.mode)
      ∧ (send_chat_message st sid req MsgUpstream.httpError d).upstreamCalled = true
      ∧ (send_chat_message st sid req MsgUpstream.httpError d).state.active_sessions
        = st.active_sessions := by
  unfold send_chat_message
  rw [hs]
  simp only [he, if_true]
  exact ⟨rfl, rfl, rfl⟩

/-- C1 witness: the amended behaviour on the concrete enhanced session. -/
theorem send_upstream_error_falls_back_witness :
    (send_chat_message stA "s" ⟨"hello", "ACT"⟩ MsgUpstream.httpError deliverAll).result
      = .ok (.basic "Received message: hello" "ACT") :=
  (send_upstream_error_falls_back stA "s" enhancedSessionA ⟨"hello", "ACT"⟩ deliverAll
    rfl rfl).1

/-- C2 counterexample: on an enhanced session, a raised connection error /
timeout (`Unreachable`) does NOT fall back — the outer exception handler
surfaces HTTP 500 to the caller. -/
theorem send_unreachable_counterexample :
    (send_chat_message stA "s" ⟨"hi", "ACT"⟩ MsgUpstream.exn deliverAll).result
      = .error (.internal "Failed to process message") := rfl

/-- C2 amended: for every enhanced-path session, a connection or timeout
failure of the upstream call makes both `send_chat_message` and
`switch_session_mode` surface a generic internal failure to the caller,
with no basic fallback and the whole state (hence the bound tier)
unchanged. -/
theorem unreachable_surfaces_internal_error (st : ServerState) (sid : String) (s : Session)
    (req : ChatMessageRequest) (mreq : ModeRequest) (d d' : Nat → Bool)
    (hs : lookup? sid st.active_sessions = some s) (he : enhancedPath s = true) :
    send_chat_message st sid req MsgUpstream.exn d
        = ⟨st, true, .error (.internal "Failed to process message")⟩
      ∧ switch_session_mode st sid mreq ModeUpstream.exn d'
        = ⟨st, true, .error (.internal "Failed to switch mode")⟩ := by
  constructor
  · unfold send_chat_message
    rw [hs]
    simp [he]
  · unfold switch_session_mode
    rw [hs]
    simp [he]

/-- C2 witness: the amended behaviour on the concrete enhanced session. -/
theorem unreachable_surfaces_internal_error_witness :
    send_chat_message stA "s" ⟨"hello", "ACT"⟩ MsgUpstream.exn deliverAll
        = ⟨stA, true, .error (.internal "Failed to process message")⟩
      ∧ switch_session_mode stA "s" ⟨"PLAN"⟩ ModeUpstream.exn deliverAll
        = ⟨stA, true, .error (.internal "Failed to switch mode")⟩ :=
  unreachable_surfaces_internal_error stA "s" enhancedSessionA ⟨"hello", "ACT"⟩ ⟨"PLAN"⟩
    deliverAll deliverAll rfl rfl

/-- C3 failing input: on the enhanced success path the handler writes
`session["mode"] = request.mode` before reading `previousMode` back out of
the same record, so switching an `ACT` session to `PLAN` reports
`previousMode = "PLAN"` instead of `"ACT"` — the response field's own name
documents the intent the code misses. -/
theorem switch_mode_previous_mode_bug :
    (switch_session_mode stA "s" ⟨"PLAN"⟩ (ModeUpstream.ok none) deliverAll).result
      = .ok { previousMode := "PLAN", currentMode := "PLAN" } := rfl

/-- C4 counterexample: `get_chat_session` merges the upstream status body
into the stored record verbatim, so a body carrying an `id` field
overwrites the stored immutable id (here from `"s"` to `"evil"`). -/
theorem get_session_overlay_mutates_id :
    lookup? "s" (get_chat_session stA "s" (GetUpstream.ok idPatch)).state.active_sessions
        = some { enhancedSessionA with id := "evil" }
      ∧ enhancedSessionA.id = "s" := ⟨rfl, rfl⟩

/-- C4 amended: `send_chat_message` and `switch_session_mode` never change
any stored session's `id` or `api_type`; `get_chat_session` also preserves
them provided the upstream status body carries neither an `id` nor an
`api_type` field (the overlay copies upstream fields verbatim). -/
theorem id_and_tier_preserved (st : ServerState) (sid : String)
    (req : ChatMessageRequest) (mreq : ModeRequest) (mu : MsgUpstream) (mo : ModeUpstream)
    (gu : GetUpstream) (d d' : Nat → Bool) (hg : patchKeepsIdTier gu) :
    preservesIdTier st.active_sessions
        (send_chat_message st sid req mu d).state.active_sessions
      ∧ preservesIdTier st.active_sessions
        (switch_session_mode st sid mreq mo d').state.active_sessions
      ∧ preservesIdTier st.active_sessions
        (get_chat_session st sid gu).state.active_sessions := by
  refine ⟨?_, ?_, ?_⟩
  · rw [send_sessions_unchanged]
    exact preservesIdTier_refl _
  · unfold switch_session_mode basicSwitchPath
    cases hlk : lookup? sid st.active_sessions with
    | none => exact preservesIdTier_refl _
    | some s =>
        by_cases he : enhancedPath s
        · cases mo with
          | ok m =>
              simp only [he, if_true]
              exact preservesIdTier_upsert hlk rfl rfl
          | httpError =>
              simp only [he, if_true]
              exact preservesIdTier_upsert hlk rfl rfl
          | exn =>
              simp only [he, if_true]
              exact preservesIdTier_refl _
        · simp only [Bool.not_eq_true] at he
          simp only [he, Bool.false_eq_true, if_false]
          exact preservesIdTier_upsert hlk rfl rfl
  · unfold get_chat_session
    cases hlk : lookup? sid st.active_sessions with
    | none => exact preservesIdTier_refl _
    | some s =>
        by_cases he : enhancedPath s
        · cases gu with
          | ok p =>
              have hg' : p.id = none ∧ p.api_type = none := hg
              simp only [he, if_true]
              refine preservesIdTier_upsert hlk ?_ ?_
              · simp [applyPatch, hg'.1]
              · simp [applyPatch, hg'.2]
          | httpError =>
              simp only [he, if_true]
              exact preservesIdTier_refl _
          | exn =>
              simp only [he, if_true]
              exact preservesIdTier_refl _
        · simp only [Bool.not_eq_true] at he
          simp only [he, Bool.false_eq_true, if_false]
          exact preservesIdTier_refl _

/-- C4 witness: the three amended frame properties instantiated on the
concrete enhanced session with an empty upstream status body. -/
theorem id_and_tier_preserved_witness :
    preservesIdTier stA.active_sessions
      (get_chat_session stA "s" (GetUpstream.ok noPatch)).state.active_sessions :=
  (id_and_tier_preserved stA "s" ⟨"hi", "ACT"⟩ ⟨"PLAN"⟩ MsgUpstream.httpError
    ModeUpstream.httpError (GetUpstream.ok noPatch) deliverAll deliverAll ⟨rfl, rfl⟩).2.2

/-- Every operation preserves the enhanced-implies-upstreamRef registry
invariant under a well-behaved environment. -/
theorem step_preserves_enhancedInv (st : ServerState) (a : Action)
    (hst : EnhancedInv st.active_sessions) (ha : goodAction a) :
    EnhancedInv (step st a).active_sessions := by
  cases a with
  | create req sid now up =>
      cases up with
      | ok ssid =>
          have ht : truthyOpt ssid = true := ha
          exact enhancedInv_upsert hst (fun _ => ht)
      | httpError => exact enhancedInv_upsert hst (fun h => by simp at h)
      | exn => exact enhancedInv_upsert hst (fun h => by simp at h)
  | getSession sid up =>
      show EnhancedInv (get_chat_session st sid up).state.active_sessions
      unfold get_chat_session
      cases hlk : lookup? sid st.active_sessions with
      | none => exact hst
      | some s =>
          by_cases he : enhancedPath s
          · cases up with
            | ok p =>
                have hp : p.api_type = none ∧ p.enhanced_session_id = none := ha
                simp only [he, if_true]
                refine enhancedInv_upsert hst ?_
                intro hty
                have h1 : (applyPatch s p).api_type = s.api_type := by
                  simp [applyPatch, hp.1]
                have h2 : (applyPatch s p).enhanced_session_id = s.enhanced_session_id := by
                  simp [applyPatch, hp.2]
                rw [h2]
                exact hst sid s hlk (by rw [← h1]; exact hty)
            | httpError => simp only [he, if_true]; exact hst
            | exn => simp only [he, if_true]; exact hst
          · simp only [Bool.not_eq_true] at he
            simp only [he, Bool.false_eq_true, if_false]
            exact hst
  | send sid req up d =>
      show EnhancedInv (send_chat_message st sid req up d).state.active_sessions
      rw [send_sessions_unchanged]
      exact hst
  | switchMode sid req up d =>
      show EnhancedInv (switch_session_mode st sid req up d).state.active_sessions
      unfold switch_session_mode basicSwitchPath
      cases hlk : lookup? sid st.active_sessions with
      | none => exact hst
      | some s =>
          have hsk : SessOk { s with mode := req.mode } := fun hty => hst sid s hlk hty
          by_cases he : enhancedPath s
          · cases up with
            | ok m => simp only [he, if_true]; exact enhancedInv_upsert hst hsk
            | httpError => simp only [he, if_true]; exact enhancedInv_upsert hst hsk
            | exn => simp only [he, if_true]; exact hst
          · simp only [Bool.not_eq_true] at he
            simp only [he, Bool.false_eq_true, if_false]
            exact enhancedInv_upsert hst hsk
  | wsJoin sid conn =>
      show EnhancedInv (websocket_join st sid conn).active_sessions
      unfold websocket_join
      split
      · exact hst
      · exact hst
  | wsSwitchMode sid mode =>
      show EnhancedInv (websocket_switch_mode st sid mode).active_sessions
      unfold websocket_switch_mode
      split
      · cases hlk : lookup? sid st.active_sessions with
        | none => exact hst
        | some s =>
            exact enhancedInv_upsert hst (fun hty => hst sid s hlk hty)
      · exact hst
  | wsDisconnect conn =>
      show EnhancedInv (websocket_disconnect st conn).active_sessions
      exact hst

/-- The invariant propagates along any trace of operations. -/
theorem enhancedInv_foldl (acts : List Action) :
    ∀ st, EnhancedInv st.active_sessions → (∀ a ∈ acts, goodAction a) →
      EnhancedInv (List.foldl step st acts).active_sessions := by
  induction acts with
  | nil => intro st h _; exact h
  | cons a rest ih =>
      intro st h hg
      simp only [List.foldl_cons]
      exact ih (step st a)
        (step_preserves_enhancedInv st a h (hg a (List.mem_cons_self a rest)))
        (fun b hb => hg b (List.mem_cons_of_mem a hb))

/-- C5 counterexample: a 200 creation response whose body lacks a
`sessionId` key yields a stored session with `api_type = "enhanced"` and no
upstream reference, violating the claimed invariant after one operation. -/
theorem enhanced_ref_invariant_counterexample :
    ¬ EnhancedInv (step initState
        (Action.create ⟨"ACT", "advanced", none⟩ "s" "t" (CreateUpstream.ok none))).active_sessions := by
  intro h
  have h2 := h "s" { id := "s", created := "t", mode := "ACT", qualityLevel := "advanced",
                     enhanced_session_id := none, api_type := "enhanced", status := "active" }
      rfl rfl
  exact absurd h2 (by decide)

/-- C5 amended: starting from the empty registry, after any sequence of
operations in which every 200 creation response carries a truthy
`sessionId` and no upstream status body carries an `api_type` or
`enhanced_session_id` key, every stored enhanced session has a present,
non-empty upstream reference. -/
theorem enhanced_sessions_have_upstream_ref (acts : List Action)
    (hgood : ∀ a ∈ acts, goodAction a) :
    EnhancedInv (List.foldl step initState acts).active_sessions :=
  enhancedInv_foldl acts initState (fun _ _ h => Option.noConfusion h) hgood

/-- C5 witness: a concrete two-operation trace (an enhanced creation with a
non-empty upstream id, then a mode switch whose upstream rejects). -/
theorem enhanced_sessions_have_upstream_ref_witness :
    EnhancedInv (List.foldl step initState
      [Action.create ⟨"ACT", "advanced", none⟩ "s" "t" (CreateUpstream.ok (some "u")),
       Action.switchMode "s" ⟨"PLAN"⟩ ModeUpstream.httpError deliverAll]).active_sessions :=
  enhanced_sessions_have_upstream_ref _ (by
    intro a ha
    rcases List.mem_cons.mp ha with rfl | ha
    · exact (by decide : truthyOpt (some "u") = true)
    · rcases List.mem_cons.mp ha with rfl | ha
      · exact trivial
      · cases ha)

/-- C9: `broadcast_to_session` is fire-and-forget. Its return type has no
error alternative (the handler swallows every delivery exception), an
absent subscriber leaves the hub untouched and drops the event, a failed
delivery unsubscribes exactly that session's handle and reports nothing to
the caller, and a successful delivery leaves the hub untouched. -/
theorem push_fire_and_forget (hub : List (String × Nat)) (sid : String)
    (message : String) (d : Nat → Bool) :
    (lookup? sid hub = none → broadcast_to_session hub sid message d = (hub, none))
      ∧ (∀ c, lookup? sid hub = some c → d c = false →
          broadcast_to_session hub sid message d = (eraseKey sid hub, some false))
      ∧ (∀ c, lookup? sid hub = some c → d c = true →
          broadcast_to_session hub sid message d = (hub, some true)) := by
  refine ⟨?_, ?_, ?_⟩
  · intro h
    unfold broadcast_to_session
    rw [h]
  · intro c h hd
    unfold broadcast_to_session
    rw [h]
    simp [hd]
  · intro c h hd
    unfold broadcast_to_session
    rw [h]
    simp [hd]

/-- C9 witness: a broken subscriber is pruned and swallowed; a push to an
unsubscribed session is dropped. -/
theorem push_fire_and_forget_witness :
    broadcast_to_session [("s", 7)] "s" "ev" deliverNone = ([], some false)
      ∧ broadcast_to_session [] "s" "ev" deliverNone = ([], none) :=
  ⟨(push_fire_and_forget [("s", 7)] "s" "ev" deliverNone).2.1 7 rfl rfl,
   (push_fire_and_forget [] "s" "ev" deliverNone).1 rfl⟩

/-- C10 counterexample: the disconnect loop deletes the first matching
binding and then breaks, so a connection subscribed to two sessions keeps
its second subscription after disconnecting. -/
theorem disconnect_leaves_second_subscription :
    (websocket_disconnect stHub2 0).websocket_connections = [("s2", 0)]
      ∧ lookup? "s2" (websocket_disconnect stHub2 0).websocket_connections = some 0 :=
  ⟨rfl, rfl⟩

/-- C10 amended: a disconnect destroys exactly the first subscription
registered to the disconnecting connection; when the removed session id
appears nowhere else in the hub, a subsequent push to it is dropped
without error (and without touching the hub). Later subscriptions of the
same connection survive the disconnect. -/
theorem disconnect_removes_first_subscription (st : ServerState)
    (pre post : List (String × Nat)) (sid : String) (conn : Nat)
    (message : String) (d : Nat → Bool)
    (hhub : st.websocket_connections = pre ++ (sid, conn) :: post)
    (hpre : ∀ p ∈ pre, p.2 ≠ conn)
    (hsid : sid ∉ (pre ++ post).map Prod.fst) :
    (websocket_disconnect st conn).websocket_connections = pre ++ post
      ∧ broadcast_to_session (pre ++ post) sid message d = (pre ++ post, none) := by
  constructor
  · show removeFirstHandle conn st.websocket_connections = pre ++ post
    rw [hhub]
    exact removeFirstHandle_clean_prefix pre post hpre
  · unfold broadcast_to_session
    rw [lookup_eq_none_of_not_mem_keys hsid]

/-- C10 witness: connection 0 disconnects holding the subscriptions for
`s2` and `s3`; only `s2` (its first) is removed, and a push to `s2` is
then dropped. -/
theorem disconnect_removes_first_subscription_witness :
    (websocket_disconnect stHub3 0).websocket_connections = [("s1", 1), ("s3", 0)]
      ∧ broadcast_to_session [("s1", 1), ("s3", 0)] "s2" "ev" deliverAll
        = ([("s1", 1), ("s3", 0)], none) :=
  disconnect_removes_first_subscription stHub3 [("s1", 1)] [("s3", 0)] "s2" 0 "ev"
    deliverAll rfl (by decide) (by decide)

end ClineServer
